import Mathlib

/-!
Shallow embedding of the SKU generator of `src/utils/skuGenerator.js`
(category/subcategory/material/brand encoders, price tier classifier,
sequence allocator, Luhn-style check digit, SKU assembly, validation,
parsing, and batch generation), together with theorems settling the
frozen claims about the natural-language specification.

Modelling conventions:
- JS strings are Lean `String`s (ASCII inputs throughout); character
  classes are expressed via `Char.toNat` arithmetic, mirroring the
  source regexes `/[A-Z]/`, `/\d/` and `charCodeAt` arithmetic.
- `Math.floor(Math.random() * 9000)` is modelled as an injected stream
  `draws : Nat -> Fin 9000` (the mathematical range of that expression);
  `Math.floor(Math.random() * 1000)` in the error-fallback path as an
  injected `Fin 1000`; `Date.now()` as an injected `ts : Nat`.
- the Mongoose repository (`Product.findOne`) is an injected function
  `Repo := String -> RepoRes` where `RepoRes.err` models a rejected
  promise (a thrown exception at the `await`).
- the unbounded collision-recursion of `generateSKU` is modelled with
  explicit fuel; fuel exhaustion yields `none` (no claim exercises it).
- `generateSequentialNumber` additionally returns the number of
  repository queries performed, as observable instrumentation needed to
  state the uniqueness-protocol claim; the string component is exactly
  the source's return value.
-/

namespace SkuGen

/-- Character class of the regex fragment `[A-Z]` (also `charCodeAt` range 65..90). -/
def isUpperAZ (c : Char) : Bool := 65 ≤ c.toNat && c.toNat ≤ 90

/-- Character class of the regex fragment `\d` (code points 48..57). -/
def isDigit09 (c : Char) : Bool := 48 ≤ c.toNat && c.toNat ≤ 57

/-- The decimal digit character for `d < 10` (code point 48 + d). -/
def digitChar (d : Nat) : Char := Char.ofNat (48 + d)

/-- Fuel-indexed decimal rendering of a natural number, least significant
digit extracted last; `fuel` only needs to exceed the argument. -/
def natToDecAux : Nat → Nat → List Char
  | 0, _ => []
  | fuel + 1, n => if n < 10 then [digitChar n] else natToDecAux fuel (n / 10) ++ [digitChar (n % 10)]

/-- Decimal rendering of a natural number, modelling JS `Number.prototype.toString`
(base 10) and template-literal interpolation of a non-negative integer. -/
def natToDec (n : Nat) : String := ⟨natToDecAux (n + 1) n⟩

/-- JS `str.split(sep)` on a single-character separator, at the level of
character lists: `splitChar sep [] = [[]]`, and each separator occurrence
starts a new segment. -/
def splitChar (sep : Char) : List Char → List (List Char)
  | [] => [[]]
  | c :: rest =>
    if c = sep then [] :: splitChar sep rest
    else
      match splitChar sep rest with
      | [] => [[c]]
      | s :: ss => (c :: s) :: ss

/-- JS `sku.split('-')` (and similar) on strings. -/
def jsSplit (sep : Char) (s : String) : List String :=
  (splitChar sep s.data).map fun cs => ⟨cs⟩

/-- JS `String.prototype.toUpperCase` restricted to ASCII input. -/
def jsToUpper (s : String) : String := ⟨s.data.map Char.toUpper⟩

/-- JS `String.prototype.toLowerCase` restricted to ASCII input. -/
def jsToLower (s : String) : String := ⟨s.data.map Char.toLower⟩

/-- JS `str.substring(0, n)`. -/
def strTake (n : Nat) (s : String) : String := ⟨s.data.take n⟩

/-- The `CATEGORY_CODES` table of the source, as an association list. -/
def CATEGORY_CODES : List (String × String) :=
  [("Fashion", "FSH"), ("Electronics", "ELE"), ("Beauty", "BTY"),
   ("Home & Garden", "HGD"), ("Sports", "SPT"), ("Books", "BOK"),
   ("Toys", "TOY"), ("Health", "HTH"), ("Food", "FOD"),
   ("Automotive", "AUT"), ("Baby & Kids", "BKD"), ("Pet Supplies", "PET")]

/-- The `SUBCATEGORY_CODES` table of the source. -/
def SUBCATEGORY_CODES : List (String × String) :=
  [("Necklaces", "NCK"), ("Earrings", "EAR"), ("Bracelets", "BRC"),
   ("Rings", "RNG"), ("Bangles", "BNG"), ("Anklets", "ANK"),
   ("Brooches", "BRO"), ("Pendants", "PND"), ("Chains", "CHN"),
   ("Sets", "SET"), ("Watches", "WTC"), ("Sunglasses", "SUN"),
   ("Bags", "BAG"), ("Shoes", "SHO"), ("Dresses", "DRS"),
   ("Tops", "TOP"), ("Bottoms", "BTM"), ("Outerwear", "OUT"),
   ("Accessories", "ACC"), ("Traditional", "TRD"),
   ("Smartphones", "SMT"), ("Laptops", "LPT"), ("Tablets", "TAB"),
   ("Cameras", "CAM"), ("Audio", "AUD"), ("Gaming", "GAM"),
   ("Smart Home", "SMH"), ("Wearables", "WER"),
   ("Skincare", "SKN"), ("Makeup", "MKP"), ("Haircare", "HRC"),
   ("Fragrance", "FRG"), ("Tools", "TLS")]

/-- The `MATERIAL_CODES` table of the source. -/
def MATERIAL_CODES : List (String × String) :=
  [("Gold", "GLD"), ("Silver", "SLV"), ("Platinum", "PLT"),
   ("Diamond", "DMD"), ("Pearl", "PRL"), ("Ruby", "RBY"),
   ("Emerald", "EMR"), ("Sapphire", "SPH"), ("Stainless Steel", "SST"),
   ("Titanium", "TTN"), ("Copper", "CPR"), ("Brass", "BRS"),
   ("Rose Gold", "RGD"), ("White Gold", "WGD"), ("Yellow Gold", "YGD"),
   ("Sterling Silver", "SSL"), ("Gemstone", "GEM"), ("Crystal", "CRY"),
   ("Alloy", "ALY"), ("Leather", "LTH"), ("Fabric", "FBR"),
   ("Plastic", "PLS"), ("Wood", "WOD"), ("Ceramic", "CER"), ("Glass", "GLS")]

/-- JS object property lookup `TABLE[key]` on the association-list model
(`none` models `undefined`). -/
def lookupTable (tbl : List (String × String)) (k : String) : Option String :=
  (tbl.find? fun p => p.1 == k).map fun p => p.2

/-- The reverse lookup `Object.keys(TABLE).find(key => TABLE[key] === code)`
used by `parseSKU`. -/
def lookupName (tbl : List (String × String)) (code : String) : Option String :=
  (tbl.find? fun p => p.2 == code).map fun p => p.1

/-- The per-character mapping of `generateCheckDigit`: `/[A-Z]/` characters map
via `charCodeAt(0) - 64` (A=1..Z=26); otherwise `parseInt(char) || 0`, which is
the digit value for a decimal digit character and 0 for anything else. -/
def charToNum (c : Char) : Nat :=
  if isUpperAZ c then c.toNat - 64
  else if isDigit09 c then c.toNat - 48
  else 0

/-- The summation loop of `generateCheckDigit`, consuming the mapped values in
right-to-left order; `alternate` is the doubling flag, toggled at every step and
initially false. A doubled value greater than 9 becomes `num % 10 + 1`. -/
def luhnSum : List Nat → Bool → Nat
  | [], _ => 0
  | n :: rest, alternate =>
    (if alternate then (if 2 * n > 9 then 2 * n % 10 + 1 else 2 * n) else n) + luhnSum rest (!alternate)

/-- Function `generateCheckDigit` of the source: map characters, run the Luhn-style loop
from the rightmost character with the doubling flag initially false, and return
`(10 - sum % 10) % 10`. -/
def generateCheckDigit (sku : String) : Nat :=
  (10 - luhnSum ((sku.data.map charToNum).reverse) false % 10) % 10

/-- Sum of the decimal digits of a value at most 99 (enough for doubled mapped
values, which are at most 52). Used only by the spec-side algorithm below. -/
def specDigitSum (n : Nat) : Nat := n / 10 + n % 10

/-- The checksum loop exactly as the spec claims it: the doubling flag starts
true at the rightmost value ("starting with the first, i.e. the rightmost"),
and a doubled value greater than 9 is replaced by the sum of its decimal
digits. This definition follows the spec's words, for comparison with
`generateCheckDigit`, which follows the source. -/
def specLuhnSum : List Nat → Bool → Nat
  | [], _ => 0
  | n :: rest, dbl =>
    (if dbl then (if 2 * n > 9 then specDigitSum (2 * n) else 2 * n) else n) + specLuhnSum rest (!dbl)

/-- The spec's checksum algorithm (claim C1's reference algorithm), sharing the
character mapping but doubling from the rightmost value and reducing doubled
values by decimal digit sum. -/
def specCheckDigit (sku : String) : Nat :=
  (10 - specLuhnSum ((sku.data.map charToNum).reverse) true % 10) % 10

/-- Position-indexed restatement of the source's loop body: the value at
0-based distance `i` from the rightmost character is doubled exactly when `i`
is odd, and a doubled value above 9 becomes `v % 10 + 1`. -/
def amendedLuhnValue (i : Nat) (v : Nat) : Nat :=
  if i % 2 = 1 then (if 2 * v > 9 then 2 * v % 10 + 1 else 2 * v) else v

/-- Position-indexed summation for the amended checksum description. -/
def amendedLuhnSum : List Nat → Nat → Nat
  | [], _ => 0
  | v :: rest, i => amendedLuhnValue i v + amendedLuhnSum rest (i + 1)

/-- The amended checksum description: doubling hits every second value starting
with the second from the right (odd distances from the right), and reduction of
a doubled value v is `v % 10 + 1`. -/
def amendedCheckDigit (sku : String) : Nat :=
  (10 - amendedLuhnSum ((sku.data.map charToNum).reverse) 0 % 10) % 10

/-- The category branch `CATEGORY_CODES[category] || 'GEN'` of `generateSKU` (an absent category
indexes the table with `undefined`, which also misses). -/
def encodeCategory (category : Option String) : String :=
  match category with
  | none => "GEN"
  | some c => (lookupTable CATEGORY_CODES c).getD "GEN"

/-- The subcategory branch of `generateSKU`: a falsy (absent or empty)
subcategory yields GEN; otherwise table lookup, else the first three
characters uppercased. -/
def encodeSubcategory (subcategory : Option String) : String :=
  match subcategory with
  | none => "GEN"
  | some s =>
    if s = "" then "GEN"
    else (lookupTable SUBCATEGORY_CODES s).getD (jsToUpper (strTake 3 s))

/-- The `materialPriority` list of `getMaterialCode`, in source order. -/
def materialPriority : List String :=
  ["diamond", "platinum", "gold", "silver", "pearl", "ruby", "emerald", "sapphire",
   "stainless steel", "titanium", "sterling silver", "rose gold", "white gold", "yellow gold",
   "gemstone", "crystal", "copper", "brass", "alloy", "leather", "fabric", "wood", "ceramic"]

/-- JS `hay.includes(ndl)` on character lists. -/
def containsSub (hay ndl : List Char) : Bool :=
  match hay with
  | [] => ndl.isEmpty
  | _ :: t => ndl.isPrefixOf hay || containsSub t ndl

/-- Capitalisation `material.charAt(0).toUpperCase() + material.slice(1)`. -/
def capFirst (s : String) : String :=
  match s.data with
  | [] => ⟨[]⟩
  | c :: rest => ⟨c.toUpper :: rest⟩

/-- The code chosen by `getMaterialCode` once keyword `m` has matched:
`MATERIAL_CODES[capitalized] || MATERIAL_CODES[uppercased] || m.substring(0,3).toUpperCase()`. -/
def materialResult (m : String) : String :=
  ((lookupTable MATERIAL_CODES (capFirst m)).orElse fun _ =>
    lookupTable MATERIAL_CODES (jsToUpper m)).getD (jsToUpper (strTake 3 m))

/-- The keyword scan of `getMaterialCode`: first keyword contained in the
search text wins; no match yields GEN. -/
def materialScan : List String → List Char → String
  | [], _ => "GEN"
  | m :: rest, st =>
    if containsSub st (jsToLower m).data then materialResult m else materialScan rest st

/-- Template-literal interpolation of a possibly-undefined string value
(JS renders `undefined` as the text "undefined"). -/
def jsStrOf (s : Option String) : String :=
  match s with
  | some v => v
  | none => "undefined"

/-- The `searchText` of `getMaterialCode`: the lowercase concatenation of the
product name, a space, and the space-joined tags (as characters). -/
def searchTextOf (productName : Option String) (tags : Option (List String)) : List Char :=
  (jsToLower (jsStrOf productName ++ " " ++ String.intercalate " " (tags.getD []))).data

/-- Function `getMaterialCode(productName, tags = [])` of the source: lowercase the
concatenation of name, a space, and the space-joined tags, and scan the
priority keywords. -/
def getMaterialCode (productName : Option String) (tags : Option (List String)) : String :=
  materialScan materialPriority (searchTextOf productName tags)

/-- The alternation `(inc|ltd|llc|corp|company|co|&|and)` of `getBrandCode`'s
regex, in source order (JS alternation tries alternatives left to right). -/
def corpWords : List (List Char) :=
  ["inc", "ltd", "llc", "corp", "company", "co", "&", "and"].map String.data

/-- The regex word-character class `\w`, ASCII `[A-Za-z0-9_]`. -/
def isWordChar (c : Char) : Bool :=
  isUpperAZ c || (97 ≤ c.toNat && c.toNat ≤ 122) || isDigit09 c || c = '_'

/-- Case-insensitive prefix match of a lowercase pattern against a text
(the `i` flag of the source regex, ASCII). -/
def ciMatch : List Char → List Char → Bool
  | [], _ => true
  | _ :: _, [] => false
  | p :: ps, c :: cs => p = c.toLower && ciMatch ps cs

/-- Whether pattern `w` matches at the head of `cs` with a `\b` word boundary
on each side; `prevW` says whether the character just before `cs` (none at the
string start) is a word character. A boundary holds where exactly one side is
a word character. -/
def wordBoundaryMatch (prevW : Bool) (w : List Char) (cs : List Char) : Bool :=
  ciMatch w cs &&
  (prevW != isWordChar (w.headD ' ')) &&
  (isWordChar (w.getLastD ' ') !=
    (match cs.drop w.length with
     | [] => false
     | c :: _ => isWordChar c))

/-- The first corporate word (in alternation order) matching at this position. -/
def findCorp (prevW : Bool) (cs : List Char) : Option (List Char) :=
  corpWords.find? fun w => wordBoundaryMatch prevW w cs

/-- Global scan of `brandName.replace(/\b(inc|ltd|llc|corp|company|co|&|and)\b/gi, '')`:
fuel-indexed left-to-right scan; at a match the matched characters are dropped
and scanning resumes after them. `fuel` only needs to exceed the list length. -/
def removeCorpAux : Nat → Bool → List Char → List Char
  | 0, _, cs => cs
  | fuel + 1, prevW, cs =>
    match cs with
    | [] => []
    | c :: rest =>
      match findCorp prevW cs with
      | some w => removeCorpAux fuel (isWordChar (w.getLastD ' ')) (cs.drop w.length)
      | none => c :: removeCorpAux fuel (isWordChar c) rest

/-- The corporate-word removal step of `getBrandCode`. -/
def removeCorpWords (s : String) : String :=
  ⟨removeCorpAux (s.data.length + 1) false s.data⟩

/-- The regex whitespace class `\s`, restricted to ASCII whitespace. -/
def isJsSpace (c : Char) : Bool :=
  c = ' ' || c = '\t' || c = '\n' || c = '\r' || c.toNat = 11 || c.toNat = 12

/-- Splitting a character list at every character satisfying `p` (runs of
separators produce empty segments, removed afterwards by the source's
`filter(word => word.length > 0)`, so this models `split(/\s+/)` followed by
that filter). -/
def splitOnPred (p : Char → Bool) : List Char → List (List Char)
  | [] => [[]]
  | c :: rest =>
    if p c then [] :: splitOnPred p rest
    else
      match splitOnPred p rest with
      | [] => [[c]]
      | s :: ss => (c :: s) :: ss

/-- JS `String.prototype.trim` (ASCII whitespace). -/
def jsTrim (s : String) : String :=
  ⟨((s.data.dropWhile isJsSpace).reverse.dropWhile isJsSpace).reverse⟩

/-- JS `str.padEnd(n, 'X')`. -/
def padEndX (n : Nat) (s : String) : String :=
  ⟨s.data ++ List.replicate (n - s.data.length) 'X'⟩

/-- Function `getBrandCode` of the source: falsy brand yields UNB; otherwise strip the
corporate words and trim; a cleaned brand of length at most 3 is uppercased and
X-padded; one that splits into at least 2 whitespace-separated words yields the
initials of the first 3 words, uppercased and X-padded; otherwise the first 3
characters uppercased. -/
def getBrandCode (brandName : Option String) : String :=
  match brandName with
  | none => "UNB"
  | some b =>
    if b = "" then "UNB"
    else
      let cleanBrand := jsTrim (removeCorpWords b)
      if cleanBrand.data.length ≤ 3 then padEndX 3 (jsToUpper cleanBrand)
      else
        let words := (splitOnPred isJsSpace cleanBrand.data).filter fun w => 0 < w.length
        if 2 ≤ words.length then
          padEndX 3 (jsToUpper ⟨(words.take 3).map fun w => w.headD ' '⟩)
        else jsToUpper (strTake 3 cleanBrand)

/-- The price branch of `generateSKU`: `priceCode` stays A when `price` is
falsy (absent, or 0); otherwise the threshold chain P/H/M/L/B with inclusive
lower bounds. Prices are modelled as rationals (JS numbers on the inputs the
claims concern; NaN is not modelled). -/
def classifyTier (price : Option ℚ) : Char :=
  match price with
  | none => 'A'
  | some p =>
    if p = 0 then 'A'
    else if p ≥ 50000 then 'P'
    else if p ≥ 20000 then 'H'
    else if p ≥ 10000 then 'M'
    else if p ≥ 5000 then 'L'
    else 'B'

/-- Result of one `Product.findOne({ sku })` call: a record was found, none was
found, or the promise rejected (the repository threw). -/
inductive RepoRes where
  | found
  | absent
  | err (msg : String)
deriving DecidableEq, Repr

/-- The injected Catalog Repository behaviour. -/
abbrev Repo := String → RepoRes

/-- Candidate `Math.floor(Math.random() * 9000) + 1000` for one drawn value. -/
def candidateOf (d : Fin 9000) : Nat := d.val + 1000

/-- Fallback suffix `Date.now().toString().slice(-4)`. -/
def lastFourDigits (ts : Nat) : String :=
  ⟨((natToDec ts).data.reverse.take 4).reverse⟩

/-- The retry loop of `generateSequentialNumber`: `rem` is the number of
attempts left (1000 at the top call), `i` indexes the random stream, `q`
counts repository queries made so far. A rejected repository promise
propagates as `Except.error`; when all attempts are exhausted the
timestamp-derived suffix is returned, without a further query. -/
def genSeqAux (repo : Repo) (draws : Nat → Fin 9000) (ts : Nat) (pfx : String) :
    Nat → Nat → Nat → Except String (String × Nat)
  | 0, _, q => Except.ok (lastFourDigits ts, q)
  | rem + 1, i, q =>
    let baseNumber := candidateOf (draws i)
    let sku := pfx ++ natToDec baseNumber
    match repo sku with
    | RepoRes.err m => Except.error m
    | RepoRes.absent => Except.ok (natToDec baseNumber, q + 1)
    | RepoRes.found => genSeqAux repo draws ts pfx rem (i + 1) (q + 1)

/-- Function `generateSequentialNumber` of the source, on an assembled five-code string (string component), paired
with the number of repository existence checks performed (instrumentation). -/
def generateSequentialNumber (repo : Repo) (draws : Nat → Fin 9000) (ts : Nat) (pfx : String) :
    Except String (String × Nat) :=
  genSeqAux repo draws ts pfx 1000 0 0

/-- The attribute payload destructured by `generateSKU`; every field is
optional (`none` models an absent / undefined property). -/
structure ProductData where
  name : Option String := none
  category : Option String := none
  subcategory : Option String := none
  brand : Option String := none
  tags : Option (List String) := none
  price : Option ℚ := none
deriving DecidableEq, Repr

/-- The hyphenless 5-segment concatenation handed to the sequence allocator by
`generateSKU` (category, subcategory, material, brand and price codes). -/
def genPfx (pd : ProductData) : String :=
  encodeCategory pd.category ++ encodeSubcategory pd.subcategory ++
    getMaterialCode pd.name pd.tags ++ getBrandCode pd.brand ++
    String.singleton (classifyTier pd.price)

/-- The final hyphenated SKU assembled by `generateSKU` from the payload's
codes and the allocated sequence number, with the check digit computed over
the hyphenless base. -/
def assembleSKU (pd : ProductData) (seqNum : String) : String :=
  encodeCategory pd.category ++ "-" ++ encodeSubcategory pd.subcategory ++ "-" ++
    getMaterialCode pd.name pd.tags ++ "-" ++ getBrandCode pd.brand ++ "-" ++
    String.singleton (classifyTier pd.price) ++ "-" ++ seqNum ++ "-" ++
    natToDec (generateCheckDigit (genPfx pd ++ seqNum))

/-- The SKU built by `generateSKU`'s catch block:
`CATEGORY_CODES[category] || 'GEN'`, the literal FALLBACK, `Date.now()`, and a
3-digit zero-padded random below 1000. -/
def fallbackSKU (pd : ProductData) (ts : Nat) (fb : Fin 1000) : String :=
  encodeCategory pd.category ++ "-FALLBACK-" ++ natToDec ts ++ "-" ++
    ⟨List.replicate (3 - (natToDec fb.val).data.length) '0' ++ (natToDec fb.val).data⟩

/-- Function `generateSKU` of the source. A repository rejection anywhere inside the
try block (inside the allocator or at the final uniqueness re-check) lands in
the catch block, which returns the fallback SKU; a collision at the final
re-check recurses with a timestamp-suffixed name (the recursion is modelled
with explicit fuel and a shifted random stream; fuel exhaustion yields `none`,
standing for the unbounded recursion no claim exercises). -/
def generateSKU (repo : Repo) (draws : Nat → Fin 9000) (ts : Nat) (fb : Fin 1000) :
    Nat → ProductData → Option String
  | 0, _ => none
  | fuel + 1, pd =>
    match generateSequentialNumber repo draws ts (genPfx pd) with
    | Except.error _ => some (fallbackSKU pd ts fb)
    | Except.ok (seqNum, _) =>
      let finalSKU := assembleSKU pd seqNum
      match repo finalSKU with
      | RepoRes.err _ => some (fallbackSKU pd ts fb)
      | RepoRes.found =>
        generateSKU repo (fun i => draws (i + 1000)) ts fb fuel
          { pd with name := some (jsStrOf pd.name ++ "_" ++ natToDec ts) }
      | RepoRes.absent => some finalSKU

/-- One entry of the list returned by `generateBatchSKUs`. -/
structure BatchResult where
  productData : ProductData
  sku : Option String
  success : Bool
  error : Option String
deriving DecidableEq, Repr

/-- Function `generateBatchSKUs` of the source: sequential iteration, each item wrapped
in try/catch. Because `generateSKU`'s own catch block converts every repository
rejection into a fallback SKU (and payloads here are always objects), the
per-item catch branch of the source is unreachable in this model; `none`
propagates fuel exhaustion only. -/
def generateBatchSKUs (repo : Repo) (draws : Nat → Fin 9000) (ts : Nat) (fb : Fin 1000)
    (fuel : Nat) : List ProductData → Option (List BatchResult)
  | [] => some []
  | pd :: rest =>
    match generateSKU repo draws ts fb fuel pd with
    | none => none
    | some sku =>
      match generateBatchSKUs repo draws ts fb fuel rest with
      | none => none
      | some others =>
        some ({ productData := pd, sku := some sku, success := true, error := none } :: others)

/-- The value `{ valid, error }` returned by `validateSKU`. -/
structure ValidationResult where
  valid : Bool
  error : Option String
deriving DecidableEq, Repr

/-- The anchored test of `/^[A-Z]?3?-...$/` — the source's `skuPattern` regex:
exactly 24 characters, three-letter segments, a one-letter tier, four digits,
one final digit, with hyphens at the six fixed positions. -/
def skuPattern (s : String) : Bool :=
  match s.data with
  | [a1, a2, a3, h1, b1, b2, b3, h2, c1, c2, c3, h3, d1, d2, d3, h4, p, h5, n1, n2, n3, n4, h6, cd] =>
    [a1, a2, a3, b1, b2, b3, c1, c2, c3, d1, d2, d3, p].all isUpperAZ &&
    [n1, n2, n3, n4, cd].all isDigit09 &&
    [h1, h2, h3, h4, h5, h6].all fun c => c = '-'
  | _ => false

/-- JS `parseInt` on the strings `validateSKU` feeds it (after the format test
the seventh segment is a single decimal digit); `none` models NaN, which
compares unequal to every number. -/
def parseIntDigit (s : String) : Option Nat :=
  match s.data with
  | [c] => if isDigit09 c then some (c.toNat - 48) else none
  | _ => none

/-- Function `validateSKU` of the source: falsy input, then the format regex, then the
check-digit comparison over the hyphenless join of the first six segments. -/
def validateSKU (sku : String) : ValidationResult :=
  if sku = "" then { valid := false, error := some "SKU is required and must be a string" }
  else if !skuPattern sku then { valid := false, error := some "Invalid SKU format" }
  else
    let parts := jsSplit '-' sku
    let checkDigit := parseIntDigit (parts.getD 6 "")
    let baseSKU := String.join (parts.take 6)
    if checkDigit ≠ some (generateCheckDigit baseSKU) then
      { valid := false, error := some "Invalid SKU check digit" }
    else { valid := true, error := none }

/-- The record returned by `parseSKU` (field `checkDigit` is the raw seventh
segment, as in the source). -/
structure ParsedSKU where
  categoryCode : String
  category : Option String
  subcategoryCode : String
  subcategory : Option String
  materialCode : String
  material : Option String
  brandCode : String
  priceCode : String
  priceRange : Option String
  sequentialNumber : String
  checkDigit : String
  isValid : Bool
deriving DecidableEq, Repr

/-- The `priceRanges` labels of `parseSKU`. -/
def priceRanges : List (String × String) :=
  [("P", "Premium (৳50,000+)"), ("H", "High (৳20,000-৳50,000)"),
   ("M", "Medium (৳10,000-৳20,000)"), ("L", "Low (৳5,000-৳10,000)"),
   ("B", "Budget (<৳5,000)"), ("A", "Unspecified")]

/-- Function `parseSKU` of the source: null for falsy input or a split into other than
7 parts; otherwise the raw codes, the reverse table lookups (undefined on a
miss), the price-range label, and the validity flag. -/
def parseSKU (sku : String) : Option ParsedSKU :=
  if sku = "" then none
  else
    let parts := jsSplit '-' sku
    if parts.length ≠ 7 then none
    else some
      { categoryCode := parts.getD 0 ""
        category := lookupName CATEGORY_CODES (parts.getD 0 "")
        subcategoryCode := parts.getD 1 ""
        subcategory := lookupName SUBCATEGORY_CODES (parts.getD 1 "")
        materialCode := parts.getD 2 ""
        material := lookupName MATERIAL_CODES (parts.getD 2 "")
        brandCode := parts.getD 3 ""
        priceCode := parts.getD 4 ""
        priceRange := lookupTable priceRanges (parts.getD 4 "")
        sequentialNumber := parts.getD 5 ""
        checkDigit := parts.getD 6 ""
        isValid := (validateSKU sku).valid }

deriving instance DecidableEq for Except

/-- A repository in which no candidate is ever taken. -/
def absentRepo : Repo := fun _ => RepoRes.absent

/-- A repository whose every query rejects (the database is down). -/
def errRepo : Repo := fun _ => RepoRes.err "db down"

/-- A repository that rejects exactly the queries for Electronics SKUs (those
whose candidate string starts with the ELE category code) and reports every
other candidate absent. -/
def eleErrRepo : Repo := fun s =>
  if "ELE".data.isPrefixOf s.data then RepoRes.err "db down" else RepoRes.absent

/-- A repository in which exactly the candidates 1000 and 1001 (under the
empty prefix) are already taken. -/
def repo12 : Repo := fun s =>
  if s = "1000" ∨ s = "1001" then RepoRes.found else RepoRes.absent

/-- A constant random stream: every draw is 0 (candidate 1000). -/
def draws0 : Nat → Fin 9000 := fun _ => ⟨0, by norm_num⟩

/-- A random stream drawing 0, 1, 2, ... (candidates 1000, 1001, 1002, ...). -/
def drawsSeq : Nat → Fin 9000 := fun i => ⟨min i 8999, by omega⟩

/-- A fixed fallback random value of 0 (rendered as the padded "000"). -/
def fb0 : Fin 1000 := ⟨0, by norm_num⟩

/-- A payload carrying only the category Electronics. -/
def pdElectronics : ProductData := { category := some "Electronics" }

/-- A payload carrying only the category Fashion. -/
def pdFashion : ProductData := { category := some "Fashion" }

/-- A payload carrying only the category Beauty. -/
def pdBeauty : ProductData := { category := some "Beauty" }

/-- A 3-character all-uppercase string, the shape of every prefix segment code. -/
def isThreeUpper (s : String) : Bool :=
  s.data.length = 3 && s.data.all isUpperAZ

/-- A 4-character all-digit string, the shape of every sequence number. -/
def isFourDigits (s : String) : Bool :=
  s.data.length = 4 && s.data.all isDigit09

lemma list_length_eq_four {α : Type} {l : List α} (h : l.length = 4) :
    ∃ a b c d, l = [a, b, c, d] := by
  match l, h with
  | [a, b, c, d], _ => exact ⟨a, b, c, d, rfl⟩

lemma upperAZ_ne_hyphen {c : Char} (h : isUpperAZ c = true) : ¬ c = '-' := by
  intro hc
  subst hc
  simp [isUpperAZ] at h

lemma digit09_ne_hyphen {c : Char} (h : isDigit09 c = true) : ¬ c = '-' := by
  intro hc
  subst hc
  simp [isDigit09] at h

lemma splitChar_of_not_mem {sep : Char} {xs : List Char} (h : sep ∉ xs) :
    splitChar sep xs = [xs] := by
  induction xs with
  | nil => rfl
  | cons c rest ih =>
    have hc : ¬ c = sep := fun hc => h (hc ▸ List.mem_cons_self c rest)
    have hrest : sep ∉ rest := fun hm => h (List.mem_cons_of_mem c hm)
    simp only [splitChar, if_neg hc, ih hrest]

lemma splitChar_append {sep : Char} {xs ys : List Char} (h : sep ∉ xs) :
    splitChar sep (xs ++ sep :: ys) = xs :: splitChar sep ys := by
  induction xs with
  | nil => simp [splitChar]
  | cons c rest ih =>
    have hc : ¬ c = sep := fun hc => h (hc ▸ List.mem_cons_self c rest)
    have hrest : sep ∉ rest := fun hm => h (List.mem_cons_of_mem c hm)
    simp only [List.cons_append, splitChar, if_neg hc, List.append_eq, ih hrest]

lemma digitChar_isDigit {d : Nat} (h : d < 10) : isDigit09 (digitChar d) = true := by
  interval_cases d <;> decide

lemma digitChar_toNat {d : Nat} (h : d < 10) : (digitChar d).toNat = 48 + d := by
  interval_cases d <;> decide

lemma digitChar_ne_hyphen {d : Nat} (h : d < 10) : ¬ digitChar d = '-' := by
  interval_cases d <;> decide

lemma natToDecAux_unfold {fuel n : Nat} :
    natToDecAux (fuel + 1) n =
      if n < 10 then [digitChar n] else natToDecAux fuel (n / 10) ++ [digitChar (n % 10)] := rfl

lemma natToDecAux_fuel {f1 f2 n : Nat} (h1 : n < f1) (h2 : n < f2) :
    natToDecAux f1 n = natToDecAux f2 n := by
  induction n using Nat.strong_induction_on generalizing f1 f2 with
  | _ n ih =>
    obtain ⟨g1, rfl⟩ : ∃ g1, f1 = g1 + 1 := ⟨f1 - 1, by omega⟩
    obtain ⟨g2, rfl⟩ : ∃ g2, f2 = g2 + 1 := ⟨f2 - 1, by omega⟩
    by_cases hn : n < 10
    · rw [natToDecAux_unfold, natToDecAux_unfold, if_pos hn, if_pos hn]
    · have hdiv : n / 10 < n := Nat.div_lt_self (by omega) (by norm_num)
      rw [natToDecAux_unfold, natToDecAux_unfold, if_neg hn, if_neg hn,
        ih (n / 10) hdiv (show n / 10 < g1 by omega) (show n / 10 < g2 by omega)]

lemma natToDec_lt_ten {n : Nat} (h : n < 10) : (natToDec n).data = [digitChar n] := by
  show natToDecAux (n + 1) n = [digitChar n]
  rw [natToDecAux_unfold, if_pos h]

lemma natToDec_step {n : Nat} (h : 10 ≤ n) :
    (natToDec n).data = (natToDec (n / 10)).data ++ [digitChar (n % 10)] := by
  show natToDecAux (n + 1) n = natToDecAux (n / 10 + 1) (n / 10) ++ [digitChar (n % 10)]
  rw [natToDecAux_unfold, if_neg (show ¬ n < 10 by omega),
    natToDecAux_fuel (show n / 10 < n from Nat.div_lt_self (by omega) (by norm_num))
      (Nat.lt_succ_self _)]

lemma natToDec_four {n : Nat} (h1 : 1000 ≤ n) (h2 : n ≤ 9999) :
    (natToDec n).data =
      [digitChar (n / 1000), digitChar (n / 100 % 10), digitChar (n / 10 % 10), digitChar (n % 10)] := by
  rw [natToDec_step (by omega), natToDec_step (by omega : 10 ≤ n / 10),
    natToDec_step (by omega : 10 ≤ n / 10 / 10), natToDec_lt_ten (by omega : n / 10 / 10 / 10 < 10)]
  simp [show n / 10 / 10 = n / 100 by omega, show n / 100 / 10 = n / 1000 by omega]

lemma natToDec_fourDigits {n : Nat} (h1 : 1000 ≤ n) (h2 : n ≤ 9999) :
    isFourDigits (natToDec n) = true := by
  simp only [isFourDigits, natToDec_four h1 h2]
  simp [List.all_cons, digitChar_isDigit (show n / 1000 < 10 by omega),
    digitChar_isDigit (show n / 100 % 10 < 10 by omega),
    digitChar_isDigit (show n / 10 % 10 < 10 by omega),
    digitChar_isDigit (show n % 10 < 10 by omega)]

lemma natToDec_all_digits (n : Nat) : (natToDec n).data.all isDigit09 = true := by
  induction n using Nat.strong_induction_on with
  | _ n ih =>
    by_cases hn : n < 10
    · simp [natToDec_lt_ten hn, digitChar_isDigit hn]
    · have hdiv : n / 10 < n := Nat.div_lt_self (by omega) (by norm_num)
      rw [natToDec_step (by omega)]
      simp [List.all_append, ih (n / 10) hdiv, digitChar_isDigit (show n % 10 < 10 by omega)]

lemma natToDec_length_ge {k : Nat} : ∀ {n : Nat}, 10 ^ k ≤ n → k + 1 ≤ (natToDec n).data.length := by
  induction k with
  | zero =>
    intro n hn
    by_cases h10 : n < 10
    · simp [natToDec_lt_ten h10]
    · rw [natToDec_step (by omega)]
      simp
  | succ k ih =>
    intro n hn
    have hpow : 10 ≤ 10 ^ (k + 1) := by
      calc (10 : Nat) = 10 ^ 1 := by norm_num
        _ ≤ 10 ^ (k + 1) := Nat.pow_le_pow_right (by norm_num) (by omega)
    have h10 : 10 ≤ n := le_trans hpow hn
    have hk : 10 ^ k ≤ n / 10 := by
      rw [Nat.le_div_iff_mul_le (by norm_num)]
      calc 10 ^ k * 10 = 10 ^ (k + 1) := by ring
        _ ≤ n := hn
    rw [natToDec_step h10]
    simp only [List.length_append, List.length_cons, List.length_nil]
    have := ih hk
    omega

lemma lastFourDigits_fourDigits {ts : Nat} (h : 1000 ≤ ts) :
    isFourDigits (lastFourDigits ts) = true := by
  have hlen : 4 ≤ (natToDec ts).data.length := by
    have : (3 : Nat) + 1 ≤ (natToDec ts).data.length :=
      natToDec_length_ge (show 10 ^ 3 ≤ ts by norm_num; omega)
    omega
  have hall : (natToDec ts).data.all isDigit09 = true := natToDec_all_digits ts
  simp only [isFourDigits, lastFourDigits, Bool.and_eq_true, decide_eq_true_eq]
  constructor
  · show ((natToDec ts).data.reverse.take 4).reverse.length = 4
    rw [List.length_reverse, List.length_take, List.length_reverse]
    omega
  · rw [List.all_eq_true] at hall ⊢
    intro c hc
    apply hall
    have h1 : c ∈ (natToDec ts).data.reverse.take 4 := List.mem_reverse.mp hc
    have h2 : c ∈ (natToDec ts).data.reverse := List.mem_of_mem_take h1
    exact List.mem_reverse.mp h2

lemma lookupTable_threeUpper {tbl : List (String × String)} {k v : String}
    (htbl : tbl.all (fun p => isThreeUpper p.2) = true)
    (h : lookupTable tbl k = some v) : isThreeUpper v = true := by
  simp only [lookupTable, Option.map_eq_some'] at h
  obtain ⟨p, hp, rfl⟩ := h
  have hmem : p ∈ tbl := List.mem_of_find?_eq_some hp
  rw [List.all_eq_true] at htbl
  exact htbl p hmem

lemma encodeCategory_threeUpper (oc : Option String) :
    isThreeUpper (encodeCategory oc) = true := by
  match oc with
  | none => decide
  | some c =>
    simp only [encodeCategory]
    cases h : lookupTable CATEGORY_CODES c with
    | none => decide
    | some v =>
      simpa using lookupTable_threeUpper (by decide) h

lemma materialResult_threeUpper {m : String} (hm : m ∈ materialPriority) :
    isThreeUpper (materialResult m) = true := by
  fin_cases hm <;> decide

lemma materialScan_threeUpper (l : List String) (st : List Char)
    (hl : ∀ m ∈ l, isThreeUpper (materialResult m) = true) :
    isThreeUpper (materialScan l st) = true := by
  induction l with
  | nil =>
    simp only [materialScan]
    decide
  | cons m rest ih =>
    simp only [materialScan]
    by_cases hc : containsSub st (jsToLower m).data = true
    · rw [if_pos hc]
      exact hl m (List.mem_cons_self m rest)
    · rw [if_neg hc]
      exact ih fun x hx => hl x (List.mem_cons_of_mem m hx)

lemma getMaterialCode_threeUpper (name : Option String) (tags : Option (List String)) :
    isThreeUpper (getMaterialCode name tags) = true := by
  unfold getMaterialCode
  exact materialScan_threeUpper _ _ fun m hm => materialResult_threeUpper hm

lemma classifyTier_upper (p : Option ℚ) : isUpperAZ (classifyTier p) = true := by
  cases p with
  | none => decide
  | some q =>
    simp only [classifyTier]
    split_ifs <;> decide

lemma classifyTier_mem (p : Option ℚ) :
    classifyTier p = 'A' ∨ classifyTier p = 'P' ∨ classifyTier p = 'H' ∨
      classifyTier p = 'M' ∨ classifyTier p = 'L' ∨ classifyTier p = 'B' := by
  cases p with
  | none => simp [classifyTier]
  | some q =>
    simp only [classifyTier]
    split_ifs <;> simp

lemma genSeqAux_allFound {repo : Repo} {draws : Nat → Fin 9000} {ts : Nat} {pfx : String}
    (hrepo : ∀ s, repo s = RepoRes.found) :
    ∀ rem i q, genSeqAux repo draws ts pfx rem i q = Except.ok (lastFourDigits ts, q + rem) := by
  intro rem
  induction rem with
  | zero => intro i q; rfl
  | succ rem ih =>
    intro i q
    simp only [genSeqAux, hrepo]
    rw [ih (i + 1) (q + 1)]
    congr 1
    congr 1
    omega

lemma genSeqAux_noErr {repo : Repo} {draws : Nat → Fin 9000} {ts : Nat} {pfx : String}
    (hrepo : ∀ s m, repo s ≠ RepoRes.err m) (hts : 1000 ≤ ts) :
    ∀ rem i q, ∃ r qq, genSeqAux repo draws ts pfx rem i q = Except.ok (r, qq) ∧
      isFourDigits r = true := by
  intro rem
  induction rem with
  | zero =>
    intro i q
    exact ⟨lastFourDigits ts, q, rfl, lastFourDigits_fourDigits hts⟩
  | succ rem ih =>
    intro i q
    simp only [genSeqAux]
    cases hr : repo (pfx ++ natToDec (candidateOf (draws i))) with
    | err m => exact absurd hr (hrepo _ m)
    | absent =>
      refine ⟨natToDec (candidateOf (draws i)), q + 1, rfl, ?_⟩
      have hlt : (draws i).val < 9000 := (draws i).isLt
      exact natToDec_fourDigits (by simp [candidateOf]) (by simp only [candidateOf]; omega)
    | found => exact ih (i + 1) (q + 1)

lemma generateSequentialNumber_noErr {repo : Repo} (draws : Nat → Fin 9000) {ts : Nat}
    (pfx : String) (hrepo : ∀ s m, repo s ≠ RepoRes.err m) (hts : 1000 ≤ ts) :
    ∃ r qq, generateSequentialNumber repo draws ts pfx = Except.ok (r, qq) ∧
      isFourDigits r = true :=
  genSeqAux_noErr hrepo hts 1000 0 0

lemma generateCheckDigit_lt (s : String) : generateCheckDigit s < 10 :=
  Nat.mod_lt _ (by norm_num)

lemma threeUpper_destruct {s : String} (h : isThreeUpper s = true) :
    ∃ a b c, s.data = [a, b, c] ∧ isUpperAZ a = true ∧ isUpperAZ b = true ∧
      isUpperAZ c = true := by
  simp only [isThreeUpper, Bool.and_eq_true, decide_eq_true_eq, List.all_eq_true] at h
  obtain ⟨a, b, c, habc⟩ := List.length_eq_three.mp h.1
  exact ⟨a, b, c, habc, h.2 _ (by rw [habc]; simp), h.2 _ (by rw [habc]; simp),
    h.2 _ (by rw [habc]; simp)⟩

lemma fourDigits_destruct {s : String} (h : isFourDigits s = true) :
    ∃ a b c d, s.data = [a, b, c, d] ∧ isDigit09 a = true ∧ isDigit09 b = true ∧
      isDigit09 c = true ∧ isDigit09 d = true := by
  simp only [isFourDigits, Bool.and_eq_true, decide_eq_true_eq, List.all_eq_true] at h
  obtain ⟨a, b, c, d, habcd⟩ := list_length_eq_four h.1
  exact ⟨a, b, c, d, habcd, h.2 _ (by rw [habcd]; simp), h.2 _ (by rw [habcd]; simp),
    h.2 _ (by rw [habcd]; simp), h.2 _ (by rw [habcd]; simp)⟩

lemma hyphen_data : ("-" : String).data = ['-'] := rfl

lemma singleton_data (c : Char) : (String.singleton c).data = [c] := rfl

lemma mk_append_mk (l1 l2 : List Char) : (⟨l1⟩ ++ ⟨l2⟩ : String) = ⟨l1 ++ l2⟩ := rfl

lemma splitChar_sku (a1 a2 a3 b1 b2 b3 c1 c2 c3 d1 d2 d3 p n1 n2 n3 n4 cd : Char)
    (hA : '-' ∉ [a1, a2, a3]) (hB : '-' ∉ [b1, b2, b3]) (hC : '-' ∉ [c1, c2, c3])
    (hD : '-' ∉ [d1, d2, d3]) (hP : '-' ∉ [p]) (hN : '-' ∉ [n1, n2, n3, n4])
    (hCd : '-' ∉ [cd]) :
    splitChar '-' [a1, a2, a3, '-', b1, b2, b3, '-', c1, c2, c3, '-', d1, d2, d3, '-',
        p, '-', n1, n2, n3, n4, '-', cd] =
      [[a1, a2, a3], [b1, b2, b3], [c1, c2, c3], [d1, d2, d3], [p], [n1, n2, n3, n4], [cd]] := by
  rw [show [a1, a2, a3, '-', b1, b2, b3, '-', c1, c2, c3, '-', d1, d2, d3, '-',
        p, '-', n1, n2, n3, n4, '-', cd] =
      [a1, a2, a3] ++ '-' :: ([b1, b2, b3] ++ '-' :: ([c1, c2, c3] ++ '-' :: ([d1, d2, d3] ++
        '-' :: ([p] ++ '-' :: ([n1, n2, n3, n4] ++ '-' :: [cd]))))) from rfl]
  rw [splitChar_append hA, splitChar_append hB, splitChar_append hC, splitChar_append hD,
    splitChar_append hP, splitChar_append hN, splitChar_of_not_mem hCd]

lemma hyphen_not_mem_upper {l : List Char} (h : l.all isUpperAZ = true) : '-' ∉ l :=
  fun hm => absurd (List.all_eq_true.mp h '-' hm) (by decide)

lemma hyphen_not_mem_digit {l : List Char} (h : l.all isDigit09 = true) : '-' ∉ l :=
  fun hm => absurd (List.all_eq_true.mp h '-' hm) (by decide)

lemma validateSKU_assembled {c1 c2 c3 c4 : String} {pc : Char} {n : String}
    (h1 : isThreeUpper c1 = true) (h2 : isThreeUpper c2 = true) (h3 : isThreeUpper c3 = true)
    (h4 : isThreeUpper c4 = true) (hp : isUpperAZ pc = true) (hn : isFourDigits n = true) :
    validateSKU (c1 ++ "-" ++ c2 ++ "-" ++ c3 ++ "-" ++ c4 ++ "-" ++ String.singleton pc ++
        "-" ++ n ++ "-" ++
        natToDec (generateCheckDigit (c1 ++ c2 ++ c3 ++ c4 ++ String.singleton pc ++ n)))
      = { valid := true, error := none } := by
  obtain ⟨a1, a2, a3, e1, ua1, ua2, ua3⟩ := threeUpper_destruct h1
  obtain ⟨b1, b2, b3, e2, ub1, ub2, ub3⟩ := threeUpper_destruct h2
  obtain ⟨g1, g2, g3, e3, ug1, ug2, ug3⟩ := threeUpper_destruct h3
  obtain ⟨d1, d2, d3, e4, ud1, ud2, ud3⟩ := threeUpper_destruct h4
  obtain ⟨n1, n2, n3, n4, e5, un1, un2, un3, un4⟩ := fourDigits_destruct hn
  set cd := generateCheckDigit (c1 ++ c2 ++ c3 ++ c4 ++ String.singleton pc ++ n) with hcddef
  have hcd : cd < 10 := generateCheckDigit_lt _
  have hcddata : (natToDec cd).data = [digitChar cd] := natToDec_lt_ten hcd
  have hS : (c1 ++ "-" ++ c2 ++ "-" ++ c3 ++ "-" ++ c4 ++ "-" ++ String.singleton pc ++
      "-" ++ n ++ "-" ++ natToDec cd).data =
      [a1, a2, a3, '-', b1, b2, b3, '-', g1, g2, g3, '-', d1, d2, d3, '-',
        pc, '-', n1, n2, n3, n4, '-', digitChar cd] := by
    simp [String.data_append, hyphen_data, singleton_data, e1, e2, e3, e4, e5, hcddata]
  have hne : ¬ (c1 ++ "-" ++ c2 ++ "-" ++ c3 ++ "-" ++ c4 ++ "-" ++ String.singleton pc ++
      "-" ++ n ++ "-" ++ natToDec cd = "") := by
    rw [String.ext_iff, hS]
    simp
  have hpat : skuPattern (c1 ++ "-" ++ c2 ++ "-" ++ c3 ++ "-" ++ c4 ++ "-" ++
      String.singleton pc ++ "-" ++ n ++ "-" ++ natToDec cd) = true := by
    simp only [skuPattern, hS]
    simp [ua1, ua2, ua3, ub1, ub2, ub3, ug1, ug2, ug3, ud1, ud2, ud3, hp,
      un1, un2, un3, un4, digitChar_isDigit hcd]
  have hsc := splitChar_sku a1 a2 a3 b1 b2 b3 g1 g2 g3 d1 d2 d3 pc n1 n2 n3 n4 (digitChar cd)
    (hyphen_not_mem_upper (by simp [ua1, ua2, ua3]))
    (hyphen_not_mem_upper (by simp [ub1, ub2, ub3]))
    (hyphen_not_mem_upper (by simp [ug1, ug2, ug3]))
    (hyphen_not_mem_upper (by simp [ud1, ud2, ud3]))
    (hyphen_not_mem_upper (by simp [hp]))
    (hyphen_not_mem_digit (by simp [un1, un2, un3, un4]))
    (hyphen_not_mem_digit (by simp [digitChar_isDigit hcd]))
  have hsplit : jsSplit '-' (c1 ++ "-" ++ c2 ++ "-" ++ c3 ++ "-" ++ c4 ++ "-" ++
      String.singleton pc ++ "-" ++ n ++ "-" ++ natToDec cd) =
      [⟨[a1, a2, a3]⟩, ⟨[b1, b2, b3]⟩, ⟨[g1, g2, g3]⟩, ⟨[d1, d2, d3]⟩, ⟨[pc]⟩,
        ⟨[n1, n2, n3, n4]⟩, ⟨[digitChar cd]⟩] := by
    rw [jsSplit, hS, hsc]
    rfl
  have hparse : parseIntDigit ⟨[digitChar cd]⟩ = some cd := by
    simp only [parseIntDigit, digitChar_isDigit hcd, if_pos]
    rw [digitChar_toNat hcd]
    simp
  have hjoin : String.join ([(⟨[a1, a2, a3]⟩ : String), ⟨[b1, b2, b3]⟩, ⟨[g1, g2, g3]⟩,
      ⟨[d1, d2, d3]⟩, ⟨[pc]⟩, ⟨[n1, n2, n3, n4]⟩, ⟨[digitChar cd]⟩].take 6) =
      c1 ++ c2 ++ c3 ++ c4 ++ String.singleton pc ++ n := by
    rw [String.ext_iff]
    simp [String.join, String.data_append, singleton_data, e1, e2, e3, e4, e5]
  simp only [validateSKU, if_neg hne, hpat, Bool.not_true, Bool.false_eq_true, if_false,
    hsplit, hjoin, ← hcddef]
  rw [show ([(⟨[a1, a2, a3]⟩ : String), ⟨[b1, b2, b3]⟩, ⟨[g1, g2, g3]⟩, ⟨[d1, d2, d3]⟩,
      ⟨[pc]⟩, ⟨[n1, n2, n3, n4]⟩, ⟨[digitChar cd]⟩].getD 6 "") = ⟨[digitChar cd]⟩ from rfl,
    hparse]
  simp

lemma materialScan_cons (m : String) (rest : List String) (st : List Char) :
    materialScan (m :: rest) st =
      if containsSub st (jsToLower m).data = true then materialResult m
      else materialScan rest st := rfl

lemma materialScan_all_false : ∀ (l : List String) (st : List Char),
    (∀ m ∈ l, containsSub st (jsToLower m).data = false) → materialScan l st = "GEN" := by
  intro l
  induction l with
  | nil => intro st _; rfl
  | cons m rest ih =>
    intro st h
    rw [materialScan_cons, if_neg (by simp [h m (List.mem_cons_self m rest)]), ih st]
    intro x hx
    exact h x (List.mem_cons_of_mem m hx)

lemma luhnSum_amended : ∀ (l : List Nat) (i : Nat),
    amendedLuhnSum l i = luhnSum l (decide (i % 2 = 1)) := by
  intro l
  induction l with
  | nil => intro i; rfl
  | cons v rest ih =>
    intro i
    have hpar : ((i + 1) % 2 = 1) ↔ ¬ (i % 2 = 1) := by omega
    simp only [amendedLuhnSum, luhnSum, amendedLuhnValue, ih (i + 1)]
    by_cases h : i % 2 = 1
    · simp [h, hpar]
    · simp [h, hpar]

/-- Claim C1: for strings of uppercase letters and decimal digits the source's
check digit allegedly equals the spec's algorithm (rightmost-first doubling,
digit-sum reduction). False already on the two-digit string "21": the source
computes 5 (it does not double the rightmost value), the spec's algorithm
computes 6. -/
theorem checkDigit_spec_cex : generateCheckDigit "21" = 5 ∧ specCheckDigit "21" = 6 := by
  decide

/-- Claim C1 (amended): the source's check digit follows the spec's algorithm
amended in two points — doubling hits every second mapped value starting with
the SECOND from the rightmost (odd 0-based distances from the right), and a
doubled value v above 9 is replaced by `v % 10 + 1` (which agrees with the
decimal digit sum only for v at most 18, hence for doubled digit values but not
for doubled letter values of J..Z). Stated for every input string. -/
theorem checkDigit_amended : ∀ s : String, generateCheckDigit s = amendedCheckDigit s := by
  intro s
  unfold generateCheckDigit amendedCheckDigit
  rw [luhnSum_amended]
  norm_num

/-- Claim C3: the category encoder allegedly falls back to the first three
uppercased letters of an unmapped category name. False: `encodeCategory` of
"Unknown Thing" (no table entry) is GEN, not UNK. -/
theorem encodeCategory_unknown_cex : encodeCategory (some "Unknown Thing") ≠ "UNK" := by
  decide

/-- Claim C3 (amended): on a table miss the category code is always GEN,
whatever the category name (empty or not); the first-3-letters-uppercased
truncation the spec describes exists only in the SUBCATEGORY encoder, where
"Unknown Thing" indeed yields UNK. -/
theorem encodeCategory_fallback_amended :
    (∀ c, lookupTable CATEGORY_CODES c = none → encodeCategory (some c) = "GEN") ∧
    encodeCategory none = "GEN" ∧
    encodeSubcategory (some "Unknown Thing") = "UNK" := by
  refine ⟨fun c h => ?_, rfl, by decide⟩
  simp [encodeCategory, h]

/-- Witness for the amended claim C3 at the concrete category "Unknown Thing",
which has no table entry. -/
theorem encodeCategory_fallback_amended_w : encodeCategory (some "Unknown Thing") = "GEN" :=
  encodeCategory_fallback_amended.1 "Unknown Thing" (by decide)

/-- Claim C4: the price tier classifier allegedly sends every price at least 0
and below 5000 to B. False at price 0: `price` 0 is falsy in the source, so the
tier stays A, not B. -/
theorem classifyTier_zero_cex : classifyTier (some 0) ≠ 'B' := by decide

/-- Claim C4 (amended): the inclusive thresholds hold for every nonzero price
(at least 50000 yields P, 20000..50000 yields H, 10000..20000 yields M,
5000..10000 yields L, below 5000 yields B), while a missing price AND the
falsy price 0 both yield A. -/
theorem classifyTier_amended :
    (∀ p : ℚ, 50000 ≤ p → classifyTier (some p) = 'P') ∧
    (∀ p : ℚ, 20000 ≤ p → p < 50000 → classifyTier (some p) = 'H') ∧
    (∀ p : ℚ, 10000 ≤ p → p < 20000 → classifyTier (some p) = 'M') ∧
    (∀ p : ℚ, 5000 ≤ p → p < 10000 → classifyTier (some p) = 'L') ∧
    (∀ p : ℚ, ¬ p = 0 → p < 5000 → classifyTier (some p) = 'B') ∧
    classifyTier (some 0) = 'A' ∧ classifyTier none = 'A' := by
  refine ⟨fun p hp => ?_, fun p hp hp2 => ?_, fun p hp hp2 => ?_, fun p hp hp2 => ?_,
    fun p hp hp2 => ?_, by decide, rfl⟩ <;> simp only [classifyTier] <;> split_ifs <;>
    first
    | rfl
    | (exfalso; linarith)

/-- Witness for the amended claim C4 at the boundary prices 50000 and 49999. -/
theorem classifyTier_amended_w :
    classifyTier (some 50000) = 'P' ∧ classifyTier (some 49999) = 'H' :=
  ⟨classifyTier_amended.1 50000 (by norm_num),
    classifyTier_amended.2.1 49999 (by norm_num) (by norm_num)⟩

/-- Claim C5: the material keyword list is allegedly ordered most specific
first, so a product named with "sterling silver" should get the
sterling-silver code SSL. False: "silver" precedes "sterling silver" in
`materialPriority`, so the name "sterling silver ring" encodes to the plain
silver code SLV, not SSL. -/
theorem materialCode_sterling_cex :
    getMaterialCode (some "sterling silver ring") none = "SLV" ∧
    getMaterialCode (some "sterling silver ring") none ≠ "SSL" := by
  decide

/-- Claim C5 (amended): the encoder scans `materialPriority` in its fixed
source order — which lists "silver" BEFORE "sterling silver", i.e. is not
most-specific-first — and the first keyword contained in the lowercase
name-and-tags text wins, so any text containing "silver" (in particular one
containing "sterling silver") but none of the three earlier keywords encodes
to SLV; a text containing no keyword at all yields GEN. -/
theorem materialCode_scan_amended :
    (∀ name tags, containsSub (searchTextOf name tags) "diamond".data = false →
      containsSub (searchTextOf name tags) "platinum".data = false →
      containsSub (searchTextOf name tags) "gold".data = false →
      containsSub (searchTextOf name tags) "silver".data = true →
      getMaterialCode name tags = "SLV") ∧
    (∀ name tags, (∀ m ∈ materialPriority,
        containsSub (searchTextOf name tags) (jsToLower m).data = false) →
      getMaterialCode name tags = "GEN") := by
  constructor
  · intro name tags hd hp hg hs
    unfold getMaterialCode materialPriority
    rw [materialScan_cons, if_neg (by rw [show jsToLower "diamond" = "diamond" from rfl, hd]; simp),
      materialScan_cons, if_neg (by rw [show jsToLower "platinum" = "platinum" from rfl, hp]; simp),
      materialScan_cons, if_neg (by rw [show jsToLower "gold" = "gold" from rfl, hg]; simp),
      materialScan_cons, if_pos (by rw [show jsToLower "silver" = "silver" from rfl, hs])]
    decide
  · intro name tags h
    exact materialScan_all_false materialPriority _ h

/-- Witness for the amended claim C5 at the concrete name
"sterling silver ring" (no diamond/platinum/gold keyword, silver present). -/
theorem materialCode_scan_amended_w : getMaterialCode (some "sterling silver ring") none = "SLV" :=
  materialCode_scan_amended.1 (some "sterling silver ring") none
    (by decide) (by decide) (by decide) (by decide)

lemma genSeqAux_succ {repo : Repo} {draws : Nat → Fin 9000} {ts : Nat} {pfx : String}
    {rem i q : Nat} :
    genSeqAux repo draws ts pfx (rem + 1) i q =
      match repo (pfx ++ natToDec (candidateOf (draws i))) with
      | RepoRes.err m => Except.error m
      | RepoRes.absent => Except.ok (natToDec (candidateOf (draws i)), q + 1)
      | RepoRes.found => genSeqAux repo draws ts pfx rem (i + 1) (q + 1) := rfl

/-- Claim C9: the sequence allocator makes at most 1000 attempts, drawing a
candidate in 1000..9999 and querying the repository once per attempt; it
returns the first candidate reported absent (a 4-digit string); with the first
two drawn candidates taken and the third free it returns the third candidate
after exactly three existence checks; with every attempt exhausted it returns
the last 4 digits of the timestamp without an error. -/
theorem generateSequentialNumber_protocol :
    (∀ (repo : Repo) (draws : Nat → Fin 9000) (ts : Nat) (pfx : String),
      repo (pfx ++ natToDec (candidateOf (draws 0))) = RepoRes.found →
      repo (pfx ++ natToDec (candidateOf (draws 1))) = RepoRes.found →
      repo (pfx ++ natToDec (candidateOf (draws 2))) = RepoRes.absent →
      generateSequentialNumber repo draws ts pfx =
        Except.ok (natToDec (candidateOf (draws 2)), 3)) ∧
    (∀ (repo : Repo) (draws : Nat → Fin 9000) (ts : Nat) (pfx : String),
      (∀ s, repo s = RepoRes.found) →
      generateSequentialNumber repo draws ts pfx = Except.ok (lastFourDigits ts, 1000)) ∧
    (∀ d : Fin 9000, 1000 ≤ candidateOf d ∧ candidateOf d ≤ 9999 ∧
      isFourDigits (natToDec (candidateOf d)) = true) := by
  refine ⟨?_, ?_, ?_⟩
  · intro repo draws ts pfx h1 h2 h3
    show genSeqAux repo draws ts pfx 1000 0 0 = _
    rw [show (1000 : Nat) = 999 + 1 from rfl, genSeqAux_succ, h1]
    show genSeqAux repo draws ts pfx 999 1 1 = _
    rw [show (999 : Nat) = 998 + 1 from rfl, genSeqAux_succ, h2]
    show genSeqAux repo draws ts pfx 998 2 2 = _
    rw [show (998 : Nat) = 997 + 1 from rfl, genSeqAux_succ, h3]
  · intro repo draws ts pfx h
    show genSeqAux repo draws ts pfx 1000 0 0 = _
    rw [genSeqAux_allFound h 1000 0 0]
  · intro d
    have hd : d.val < 9000 := d.isLt
    refine ⟨by simp [candidateOf], by simp only [candidateOf]; omega, ?_⟩
    exact natToDec_fourDigits (by simp [candidateOf]) (by simp only [candidateOf]; omega)

/-- Witness for claim C9: with candidates 1000 and 1001 taken and 1002 free,
the allocator returns "1002" after exactly three existence checks. -/
theorem generateSequentialNumber_protocol_w :
    generateSequentialNumber repo12 drawsSeq 1700000000000 "" = Except.ok ("1002", 3) := by
  have h := generateSequentialNumber_protocol.1 repo12 drawsSeq 1700000000000 ""
    (by decide) (by decide) (by decide)
  rw [h]
  decide

/-- Claim C10: a repository rejection is allegedly propagated as an explicit
failure of `generateSKU`, and `generateBatchSKUs` on a 3-item batch with the
repository throwing only for item 2 allegedly marks item 2 `success: false`
with a null sku. False: `generateSKU`'s catch block swallows the rejection and
returns a fallback SKU, so all three batch entries come back `success: true`,
item 2 carrying the fallback SKU instead of null. -/
theorem batch_middle_throw_cex :
    (generateBatchSKUs eleErrRepo draws0 1700000000000 fb0 1
        [pdFashion, pdElectronics, pdBeauty]).map (List.map BatchResult.success) =
      some [true, true, true] ∧
    (generateBatchSKUs eleErrRepo draws0 1700000000000 fb0 1
        [pdFashion, pdElectronics, pdBeauty]).map (List.map BatchResult.sku) =
      some [some "FSH-GEN-GEN-UNB-A-1000-2", some "ELE-FALLBACK-1700000000000-000",
        some "BTY-GEN-GEN-UNB-A-1000-7"] := by
  decide

/-- Claim C10 (amended): when the repository rejects inside the allocator,
`generateSKU` catches the error and returns the fallback SKU (category code,
the literal FALLBACK, the timestamp and a padded random) instead of failing;
consequently every entry `generateBatchSKUs` produces is marked
`success: true` with a non-null sku, and the batch never aborts (one result
per input item). -/
theorem generateSKU_fallback_amended :
    (∀ (repo : Repo) (draws : Nat → Fin 9000) (ts : Nat) (fb : Fin 1000) (fuel : Nat)
      (pd : ProductData) (m : String),
      generateSequentialNumber repo draws ts (genPfx pd) = Except.error m →
      generateSKU repo draws ts fb (fuel + 1) pd = some (fallbackSKU pd ts fb)) ∧
    (∀ (repo : Repo) (draws : Nat → Fin 9000) (ts : Nat) (fb : Fin 1000) (fuel : Nat)
      (pds : List ProductData) (res : List BatchResult),
      generateBatchSKUs repo draws ts fb fuel pds = some res →
      res.length = pds.length ∧ ∀ r ∈ res, r.success = true ∧ r.sku.isSome = true) := by
  constructor
  · intro repo draws ts fb fuel pd m h
    simp [generateSKU, h]
  · intro repo draws ts fb fuel pds
    induction pds with
    | nil =>
      intro res h
      simp only [generateBatchSKUs] at h
      injection h with h
      subst h
      simp
    | cons pd rest ih =>
      intro res h
      simp only [generateBatchSKUs] at h
      cases hsku : generateSKU repo draws ts fb fuel pd with
      | none => rw [hsku] at h; exact absurd h (by simp)
      | some sku =>
        rw [hsku] at h
        cases hrest : generateBatchSKUs repo draws ts fb fuel rest with
        | none => rw [hrest] at h; exact absurd h (by simp)
        | some others =>
          rw [hrest] at h
          injection h with h
          subst h
          obtain ⟨hlen, hall⟩ := ih others hrest
          refine ⟨by simp [hlen], ?_⟩
          intro r hr
          rcases List.mem_cons.mp hr with hr | hr
          · subst hr; exact ⟨rfl, rfl⟩
          · exact hall r hr

/-- Witness for the amended claim C10: with the always-rejecting repository the
generator returns the fallback SKU for the Electronics payload. -/
theorem generateSKU_fallback_amended_w :
    generateSKU errRepo draws0 1700000000000 fb0 1 pdElectronics =
      some (fallbackSKU pdElectronics 1700000000000 fb0) :=
  generateSKU_fallback_amended.1 errRepo draws0 1700000000000 fb0 0 pdElectronics
    "db down" (by decide)

/-- Claim C2: every string `generateSKU` returns allegedly satisfies
`validateSKU(sku).valid`, including the one produced by the internal-error
fallback path. False: when the repository rejects, the catch block returns
`ELE-FALLBACK-<timestamp>-<random>`, which fails the format check. -/
theorem generateSKU_validates_cex :
    generateSKU errRepo draws0 1700000000000 fb0 1 pdElectronics =
      some "ELE-FALLBACK-1700000000000-000" ∧
    (validateSKU "ELE-FALLBACK-1700000000000-000").valid = false := by
  decide

/-- Claim C2 (amended): the invariant holds for the non-error path — whenever
the repository never rejects, the timestamp has at least 4 digits, and the
subcategory and brand encoders yield 3-uppercase-letter codes (as they do for
payloads whose subcategory is absent or a table key and whose brand is absent,
while the category, material and tier codes always conform) — every SKU
`generateSKU` returns passes `validateSKU`; the error-path fallback SKU,
by contrast, fails validation (see the counterexample). -/
theorem generateSKU_validates_amended :
    ∀ (fuel : Nat) (repo : Repo) (draws : Nat → Fin 9000) (ts : Nat) (fb : Fin 1000)
      (pd : ProductData) (sku : String),
      (∀ s m, repo s ≠ RepoRes.err m) → 1000 ≤ ts →
      isThreeUpper (encodeSubcategory pd.subcategory) = true →
      isThreeUpper (getBrandCode pd.brand) = true →
      generateSKU repo draws ts fb fuel pd = some sku →
      (validateSKU sku).valid = true := by
  intro fuel
  induction fuel with
  | zero =>
    intro repo draws ts fb pd sku _ _ _ _ hgen
    simp [generateSKU] at hgen
  | succ fuel ih =>
    intro repo draws ts fb pd sku hnoerr hts hsub hbrand hgen
    obtain ⟨r, qq, hok, hfd⟩ :=
      generateSequentialNumber_noErr draws (genPfx pd) hnoerr hts
    simp only [generateSKU, hok] at hgen
    cases hr : repo (assembleSKU pd r) with
    | err m => exact absurd hr (hnoerr _ m)
    | found =>
      rw [hr] at hgen
      have hgen' : generateSKU repo (fun i => draws (i + 1000)) ts fb fuel
          { pd with name := some (jsStrOf pd.name ++ "_" ++ natToDec ts) } = some sku := hgen
      exact ih repo (fun i => draws (i + 1000)) ts fb
        { pd with name := some (jsStrOf pd.name ++ "_" ++ natToDec ts) } sku
        hnoerr hts hsub hbrand hgen'
    | absent =>
      rw [hr] at hgen
      injection hgen with hsku
      subst hsku
      have hv : validateSKU (assembleSKU pd r) = { valid := true, error := none } :=
        validateSKU_assembled (encodeCategory_threeUpper pd.category) hsub
          (getMaterialCode_threeUpper pd.name pd.tags) hbrand
          (classifyTier_upper pd.price) hfd
      rw [hv]

/-- Witness for the amended claim C2: the empty payload under an all-absent
repository generates GEN-GEN-GEN-UNB-A-1000-3, which validates. -/
theorem generateSKU_validates_amended_w :
    (validateSKU "GEN-GEN-GEN-UNB-A-1000-3").valid = true :=
  generateSKU_validates_amended 1 absentRepo draws0 1700000000000 fb0 {}
    "GEN-GEN-GEN-UNB-A-1000-3" (fun _ _ h => RepoRes.noConfusion h) (by norm_num)
    (by decide) (by decide) (by decide)

/-- Claim C6: `parseSKU` allegedly returns null whenever `validateSKU`
rejects; in particular a 7-segment string with a wrong check digit should
parse to null. False: the string AAA-AAA-AAA-AAA-A-1111-0 fails validation
(its check digit should be 5) yet parses to a record. -/
theorem parseSKU_invalid_cex :
    (validateSKU "AAA-AAA-AAA-AAA-A-1111-0").valid = false ∧
    parseSKU "AAA-AAA-AAA-AAA-A-1111-0" ≠ none := by
  decide

/-- Claim C6 (amended): `parseSKU` returns null exactly when the input is the
empty (falsy) string or does not split into 7 hyphen-separated parts; any
7-part string — even one failing the format or check-digit test — parses to a
record, which merely carries the validity verdict in its `isValid` field.
Both functions are total (malformed input yields a structured result or null,
never an exception). -/
theorem parseSKU_null_amended :
    (∀ s : String, parseSKU s = none ↔ (s = "" ∨ (jsSplit '-' s).length ≠ 7)) ∧
    (∀ s : String, parseSKU s ≠ none →
      (parseSKU s).map ParsedSKU.isValid = some (validateSKU s).valid) := by
  constructor
  · intro s
    by_cases h1 : s = ""
    · simp [parseSKU, h1]
    · by_cases h2 : (jsSplit '-' s).length ≠ 7
      · simp [parseSKU, h1, h2]
      · simp [parseSKU, h1, h2]
  · intro s h
    by_cases h1 : s = ""
    · exact absurd (by simp [parseSKU, h1]) h
    · by_cases h2 : (jsSplit '-' s).length ≠ 7
      · exact absurd (by simp [parseSKU, h1, h2]) h
      · simp [parseSKU, h1, h2]

/-- Witness for the amended claim C6 at the 7-part string with a wrong check
digit, which parses to a record carrying the failed validation verdict. -/
theorem parseSKU_null_amended_w :
    (parseSKU "AAA-AAA-AAA-AAA-A-1111-0").map ParsedSKU.isValid =
      some (validateSKU "AAA-AAA-AAA-AAA-A-1111-0").valid :=
  parseSKU_null_amended.2 "AAA-AAA-AAA-AAA-A-1111-0" (by decide)

/-- Claim C7: for every generated SKU, `parseSKU` allegedly returns a record
with non-null category, subcategory, material and tier fields, fallback values
substituting for codes like GEN or UNB. False: the empty payload generates
GEN-GEN-GEN-UNB-A-1000-3, whose parse has null (undefined) category,
subcategory and material — GEN and UNB have no reverse-table entry and no
fallback value is substituted. -/
theorem parseSKU_generated_null_cex :
    generateSKU absentRepo draws0 1700000000000 fb0 1 {} =
      some "GEN-GEN-GEN-UNB-A-1000-3" ∧
    (parseSKU "GEN-GEN-GEN-UNB-A-1000-3").map ParsedSKU.category = some none ∧
    (parseSKU "GEN-GEN-GEN-UNB-A-1000-3").map ParsedSKU.subcategory = some none ∧
    (parseSKU "GEN-GEN-GEN-UNB-A-1000-3").map ParsedSKU.material = some none := by
  decide

/-- Claim C7 (amended): a parsed record's named category/subcategory/material
fields are exactly the reverse-table lookups of the raw code segments — null
precisely on a table miss, as happens for the generated fallback codes GEN and
UNB — and its priceRange is the label-table lookup of the tier letter, which
succeeds for every tier letter the classifier can produce, so only the tier
field of a generated SKU is never null. -/
theorem parseSKU_fields_amended :
    (∀ s r, parseSKU s = some r →
      r.category = lookupName CATEGORY_CODES r.categoryCode ∧
      r.subcategory = lookupName SUBCATEGORY_CODES r.subcategoryCode ∧
      r.material = lookupName MATERIAL_CODES r.materialCode ∧
      r.priceRange = lookupTable priceRanges r.priceCode) ∧
    (∀ p : Option ℚ,
      (lookupTable priceRanges (String.singleton (classifyTier p))).isSome = true) := by
  constructor
  · intro s r h
    by_cases h1 : s = ""
    · exact absurd h (by simp [parseSKU, h1])
    · by_cases h2 : (jsSplit '-' s).length ≠ 7
      · exact absurd h (by simp [parseSKU, h1, h2])
      · simp only [parseSKU, if_neg h1, if_neg h2, Option.some.injEq] at h
        subst h
        exact ⟨rfl, rfl, rfl, rfl⟩
  · intro p
    rcases classifyTier_mem p with h | h | h | h | h | h <;> rw [h] <;> decide

/-- Witness for the amended claim C7 at the parse of the generated SKU
GEN-GEN-GEN-UNB-A-1000-3 (all three reverse lookups miss, the tier resolves). -/
theorem parseSKU_fields_amended_w :
    (⟨"GEN", none, "GEN", none, "GEN", none, "UNB", "A", some "Unspecified",
        "1000", "3", true⟩ : ParsedSKU).category = lookupName CATEGORY_CODES "GEN" ∧
    (⟨"GEN", none, "GEN", none, "GEN", none, "UNB", "A", some "Unspecified",
        "1000", "3", true⟩ : ParsedSKU).subcategory = lookupName SUBCATEGORY_CODES "GEN" ∧
    (⟨"GEN", none, "GEN", none, "GEN", none, "UNB", "A", some "Unspecified",
        "1000", "3", true⟩ : ParsedSKU).material = lookupName MATERIAL_CODES "GEN" ∧
    (⟨"GEN", none, "GEN", none, "GEN", none, "UNB", "A", some "Unspecified",
        "1000", "3", true⟩ : ParsedSKU).priceRange = lookupTable priceRanges "A" :=
  parseSKU_fields_amended.1 "GEN-GEN-GEN-UNB-A-1000-3"
    ⟨"GEN", none, "GEN", none, "GEN", none, "UNB", "A", some "Unspecified",
      "1000", "3", true⟩ (by decide)

lemma valid_implies_pattern {s : String} (h : (validateSKU s).valid = true) :
    skuPattern s = true := by
  by_cases h1 : s = ""
  · unfold validateSKU at h
    rw [if_pos h1] at h
    simp at h
  · cases hb : skuPattern s with
    | true => rfl
    | false =>
      unfold validateSKU at h
      rw [if_neg h1, hb] at h
      simp at h

/-- Claim C8: every string `validateSKU` accepts allegedly has total length
27. False: the accepted string GEN-GEN-GEN-UNB-A-1000-3 has length 24
(segments 3+3+3+3+1+4+1 = 18 characters plus 6 hyphens). -/
theorem validSKU_length_cex :
    (validateSKU "GEN-GEN-GEN-UNB-A-1000-3").valid = true ∧
    ¬ ("GEN-GEN-GEN-UNB-A-1000-3" : String).length = 27 := by
  decide

/-- Claim C8 (amended): every string `validateSKU` accepts has total length
exactly 24 — 6 hyphens at fixed positions separating segments of lengths
3, 3, 3, 3, 1, 4, 1 (18 payload characters plus 6 hyphens). -/
theorem validSKU_length_amended : ∀ s : String, (validateSKU s).valid = true →
    s.length = 24 ∧ (jsSplit '-' s).map String.length = [3, 3, 3, 3, 1, 4, 1] := by
  intro s h
  have hpat := valid_implies_pattern h
  unfold skuPattern at hpat
  split at hpat
  case h_2 => exact absurd hpat (by simp)
  case h_1 a1 a2 a3 hh1 b1 b2 b3 hh2 g1 g2 g3 hh3 d1 d2 d3 hh4 pch hh5 n1 n2 n3 n4 hh6 cdc heq =>
    simp only [Bool.and_eq_true, List.all_eq_true, List.mem_cons, List.not_mem_nil,
      decide_eq_true_eq] at hpat
    obtain ⟨⟨hU, hD⟩, hH⟩ := hpat
    have he1 : hh1 = '-' := hH hh1 (by tauto)
    have he2 : hh2 = '-' := hH hh2 (by tauto)
    have he3 : hh3 = '-' := hH hh3 (by tauto)
    have he4 : hh4 = '-' := hH hh4 (by tauto)
    have he5 : hh5 = '-' := hH hh5 (by tauto)
    have he6 : hh6 = '-' := hH hh6 (by tauto)
    subst he1 he2 he3 he4 he5 he6
    have ua1 := hU a1 (by tauto)
    have ua2 := hU a2 (by tauto)
    have ua3 := hU a3 (by tauto)
    have ub1 := hU b1 (by tauto)
    have ub2 := hU b2 (by tauto)
    have ub3 := hU b3 (by tauto)
    have ug1 := hU g1 (by tauto)
    have ug2 := hU g2 (by tauto)
    have ug3 := hU g3 (by tauto)
    have ud1 := hU d1 (by tauto)
    have ud2 := hU d2 (by tauto)
    have ud3 := hU d3 (by tauto)
    have up := hU pch (by tauto)
    have un1 := hD n1 (by tauto)
    have un2 := hD n2 (by tauto)
    have un3 := hD n3 (by tauto)
    have un4 := hD n4 (by tauto)
    have ucd := hD cdc (by tauto)
    constructor
    · show s.data.length = 24
      rw [heq]
      rfl
    · rw [jsSplit, heq, splitChar_sku a1 a2 a3 b1 b2 b3 g1 g2 g3 d1 d2 d3 pch n1 n2 n3 n4 cdc
        (hyphen_not_mem_upper (by simp [ua1, ua2, ua3]))
        (hyphen_not_mem_upper (by simp [ub1, ub2, ub3]))
        (hyphen_not_mem_upper (by simp [ug1, ug2, ug3]))
        (hyphen_not_mem_upper (by simp [ud1, ud2, ud3]))
        (hyphen_not_mem_upper (by simp [up]))
        (hyphen_not_mem_digit (by simp [un1, un2, un3, un4]))
        (hyphen_not_mem_digit (by simp [ucd]))]
      rfl

/-- Witness for the amended claim C8 at the accepted string
GEN-GEN-GEN-UNB-A-1000-3. -/
theorem validSKU_length_amended_w :
    ("GEN-GEN-GEN-UNB-A-1000-3" : String).length = 24 ∧
    (jsSplit '-' "GEN-GEN-GEN-UNB-A-1000-3").map String.length = [3, 3, 3, 3, 1, 4, 1] :=
  validSKU_length_amended "GEN-GEN-GEN-UNB-A-1000-3" (by decide)

end SkuGen
